import Mathlib

set_option maxRecDepth 8000

/-!
Shallow embedding of `src/xui_tui_app.py` (the X-UI TUI manager).

Modelling conventions, fixed once for the whole file:

* Python dicts with string keys are insertion-ordered association lists
  (`List (String × Prim)`); `dict.get` / item assignment are `dictGet` /
  `dictSet` below.
* The `settings` field of an inbound is a JSON-encoded string on the wire and
  a structured dict in memory.  A JSON string is modelled by the document it
  encodes: `SettingsField.ser d` is the string `json.dumps` would produce for
  the document `d`, and `json.loads` maps it back to `d`.  `json.dumps` and
  `json.loads` are inverse bijections on well-formed documents, so this
  abstraction is faithful for every claim below (none inspects raw JSON text).
* Network responses are oracle parameters: `listResp` is what the panel's
  list endpoint would answer (`none` = any transport/HTTP/parse/`success=false`
  failure, which `_request` collapses to Python `None`; `some o` = a success
  body whose optional `obj` field is `o`).  `updResp` likewise for the update
  endpoint (`_request` only ever returns a body whose `success` field is true,
  so a success body carries no further information here).
* The two `str(uuid.uuid4())` calls in `add_client_to_inbound` are oracle
  parameters `u` (the fresh client id) and `g` (the generated secret).
* Every operation returns, next to its result, the chronological list of HTTP
  requests it issued (`List Request`), so "performs no network request" is
  the statement that this list is empty.
-/

/-- Python `str.lower()`, as applied to the protocol strings (stated by
structural recursion over the character list so that it reduces in the
kernel; it agrees with `String.toLower` and with Python `lower` on the ASCII
protocol names this program compares). -/
def strLower (s : String) : String := String.mk (s.data.map Char.toLower)

/-- A primitive JSON value as it occurs in client records and settings
documents of this program (strings and integers only ever occur). -/
inductive Prim where
  | str : String → Prim
  | int : Int → Prim
deriving DecidableEq, Repr

/-- A client record: a Python dict with string keys, insertion ordered. -/
abbrev Client := List (String × Prim)

/-- `dict.get(k)`: the value at the first (unique) occurrence of key `k`. -/
def dictGet (c : Client) (k : String) : Option Prim :=
  (c.find? (fun p => p.1 == k)).map (fun p => p.2)

/-- `dict[k] = v`: replace the value at key `k` in place (dict keys are
unique, so mapping over all occurrences is replacement of the one), or append
the new key at the end, as Python dict assignment does. -/
def dictSet (c : Client) (k : String) (v : Prim) : Client :=
  if (c.find? (fun p => p.1 == k)).isSome then
    c.map (fun p => if p.1 == k then (k, v) else p)
  else c ++ [(k, v)]

/-- An inbound's parsed settings document: the `clients` list (defaulting to
`[]` when the key is absent, matching `settings.get('clients', [])`) and the
remaining settings fields, which the program never touches. -/
structure SettingsDoc where
  clients : List Client
  rest : List (String × Prim)
deriving DecidableEq, Repr

/-- The `settings` field of an inbound dict: either the JSON string encoding
a document (`ser`, as the panel returns it) or an in-memory structured dict
(`doc`, after the program re-assigns the parsed form). -/
inductive SettingsField where
  | ser : SettingsDoc → SettingsField
  | doc : SettingsDoc → SettingsField
deriving DecidableEq, Repr

/-- `update_inbound`'s serialization step: `if 'settings' in payload_data and
isinstance(payload_data['settings'], dict): payload_data['settings'] =
json.dumps(payload_data['settings'])`.  A structured dict is dumped to its
JSON-string form; a string is left as is. -/
def stringifySettings : SettingsField → SettingsField
  | SettingsField.doc d => SettingsField.ser d
  | SettingsField.ser d => SettingsField.ser d

/-- An inbound dict as returned by the panel's list endpoint.  The fields the
program accesses unconditionally (`id`, `remark`, `protocol`, `port`,
`settings`) are explicit; `extra` holds every other key of the dict
(`streamSettings`, `sniffing`, ...), which the program copies through. -/
structure Inbound where
  id : Int
  remark : String
  protocol : String
  port : Int
  settings : SettingsField
  extra : List (String × Prim)
deriving DecidableEq, Repr

/-- The keys of the inbound dict, in order: the JSON object keys a payload
built from this dict contains. -/
def inboundKeys (ib : Inbound) : List String :=
  ["id", "remark", "protocol", "port", "settings"] ++ ib.extra.map (fun p => p.1)

/-- The body of an HTTP request issued by the program: a form-urlencoded
key/value body (`data=`), a JSON body carrying an inbound dict (`json=`), or
no body (GET). -/
inductive ReqPayload where
  | form : List (String × String) → ReqPayload
  | json : Inbound → ReqPayload
  | empty : ReqPayload
deriving DecidableEq, Repr

/-- One HTTP request as issued through `_request`. -/
structure Request where
  method : String
  endpoint : String
  payload : ReqPayload
deriving DecidableEq, Repr

/-- The GET issued by `get_inbounds`. -/
def listRequest : Request :=
  { method := "GET", endpoint := "panel/api/inbounds/list", payload := ReqPayload.empty }

/-- The `XUIAPI` object state the claims observe: credentials and the
`login_status` flag (`False` at construction). -/
structure Api where
  username : String
  password : String
  login_status : Bool
deriving DecidableEq, Repr

/-- `XUIAPI.login`: posts the credentials form-encoded to `login`; on a
non-`None` `_request` result (which always carries `success=true`) sets
`login_status = True` and returns `True`; otherwise sets `login_status =
False` and returns `False`.  Result: ((return value, new api state), trace). -/
def login (api : Api) (resp : Option Unit) : (Bool × Api) × List Request :=
  let tr : List Request :=
    [{ method := "POST", endpoint := "login",
       payload := ReqPayload.form [("username", api.username), ("password", api.password)] }]
  match resp with
  | some _ => ((true, { api with login_status := true }), tr)
  | none => ((false, { api with login_status := false }), tr)

/-- `XUIAPI.get_inbounds`: when not logged in, returns `None` without any
request; otherwise issues one GET to the list endpoint and returns whatever
`_request` produced. -/
def get_inbounds (api : Api) (listResp : Option (Option (List Inbound))) :
    Option (Option (List Inbound)) × List Request :=
  if api.login_status = false then (none, [])
  else (listResp, [listRequest])

/-- The linear scan of `get_inbound_details`: first inbound with the given
id. -/
def findInbound (l : List Inbound) (inbound_id : Int) : Option Inbound :=
  l.find? (fun ib => ib.id == inbound_id)

/-- `XUIAPI.get_inbound_details`: guards on `login_status`, lists all
inbounds, and linearly scans the `obj` list for the id.  A failed list call,
an absent `obj`, or a falsy (empty) `obj` all yield `None` (the scan of an
empty list finds nothing, so the Python truthiness guard on `obj` is
behaviour-preservingly folded into `findInbound`). -/
def get_inbound_details (api : Api) (listResp : Option (Option (List Inbound)))
    (inbound_id : Int) : Option Inbound × List Request :=
  if api.login_status = false then (none, [])
  else
    let r := get_inbounds api listResp
    match r.1 with
    | some (some obj) => (findInbound obj inbound_id, r.2)
    | _ => (none, r.2)

/-- The POST issued by `update_inbound`, carrying the payload dict as a JSON
body. -/
def updateRequest (payload_data : Inbound) : Request :=
  { method := "POST", endpoint := "panel/api/inbounds/update",
    payload := ReqPayload.json payload_data }

/-- Whether a request body is form-urlencoded (`data=`). -/
def isFormBody : ReqPayload → Bool
  | ReqPayload.form _ => true
  | _ => false

/-- `XUIAPI.update_inbound`: guards on `login_status`, copies the inbound
dict, stringifies a structured `settings` field, and posts the whole copy as
a JSON body to the update endpoint. -/
def update_inbound (api : Api) (inbound_config : Inbound) (updResp : Option Unit) :
    Option Unit × List Request :=
  if api.login_status = false then (none, [])
  else
    let payload_data : Inbound :=
      { inbound_config with settings := stringifySettings inbound_config.settings }
    (updResp, [updateRequest payload_data])

/-- The protocol guard `inbound_details['protocol'].lower() in ['vless',
'vmess', 'trojan']` (the source tests `not in` and bails out). -/
def supportedProtocol (p : String) : Bool :=
  decide (strLower p ∈ (["vless", "vmess", "trojan"] : List String))

/-- The duplicate-label pre-check of `add_client_to_inbound`: some existing
client's `email` equals the new label. -/
def hasEmailClient (clients : List Client) (email : String) : Bool :=
  clients.any (fun c => dictGet c "email" == some (Prim.str email))

/-- `client_password if client_password else str(uuid.uuid4())`: a supplied
truthy (non-empty) secret is kept, otherwise the oracle uuid `g` is used. -/
def generatedSecret (client_password : Option String) (g : String) : String :=
  match client_password with
  | some s => if s = "" then g else s
  | none => g

/-- The protocol-keyed `new_client` dict construction of
`add_client_to_inbound` (`u` is `new_client_uuid`, `g` the generated
password).  The final branch mirrors the initial `new_client = {}`, which is
unreachable after the protocol guard. -/
def build_new_client (protocol : String) (client_email u g : String) : Client :=
  if strLower protocol = "vless" then
    [("id", Prim.str u), ("email", Prim.str client_email), ("flow", Prim.str ""),
     ("level", Prim.int 0), ("password", Prim.str g)]
  else if strLower protocol = "vmess" then
    [("id", Prim.str g), ("email", Prim.str client_email),
     ("alterId", Prim.int 0), ("level", Prim.int 0)]
  else if strLower protocol = "trojan" then
    [("password", Prim.str g), ("email", Prim.str client_email), ("level", Prim.int 0)]
  else []

/-- The distinct exit points of `add_client_to_inbound`, one per return
statement / console message of the source (the Python return value is `True`
exactly for `added`).  `badSettings` is the `TypeError` that
`json.loads` raises when `settings` is already a dict, which propagates out
of the method. -/
inductive AddResult where
  | notLoggedIn
  | inboundNotFound
  | unsupportedProtocol
  | badSettings
  | duplicateEmail
  | updateFailed
  | added
deriving DecidableEq, Repr

/-- `XUIAPI.add_client_to_inbound`: login guard; fetch details (one list
GET); protocol guard; parse `settings`; duplicate-email pre-check; synthesize
the new client; append it to the full client list; write the structured
settings back into the inbound dict and push the whole inbound through
`update_inbound`. -/
def add_client_to_inbound (api : Api) (inbound_id : Int) (client_email : String)
    (client_password : Option String) (u g : String)
    (listResp : Option (Option (List Inbound))) (updResp : Option Unit) :
    AddResult × List Request :=
  if api.login_status = false then (AddResult.notLoggedIn, [])
  else
    let r := get_inbound_details api listResp inbound_id
    match r.1 with
    | none => (AddResult.inboundNotFound, r.2)
    | some inbound_details =>
      if supportedProtocol inbound_details.protocol = false then
        (AddResult.unsupportedProtocol, r.2)
      else
        match inbound_details.settings with
        | SettingsField.doc _ => (AddResult.badSettings, r.2)
        | SettingsField.ser settings =>
          if hasEmailClient settings.clients client_email then
            (AddResult.duplicateEmail, r.2)
          else
            let new_client :=
              build_new_client inbound_details.protocol client_email u
                (generatedSecret client_password g)
            let clients := settings.clients ++ [new_client]
            let ib2 : Inbound :=
              { inbound_details with
                settings := SettingsField.doc { settings with clients := clients } }
            let r2 := update_inbound api ib2 updResp
            match r2.1 with
            | some _ => (AddResult.added, r.2 ++ r2.2)
            | none => (AddResult.updateFailed, r.2 ++ r2.2)

/-- The client-matching test of `handle_update_client`:
`(client.get('id') == client_identifier) or (client.get('email') ==
client_identifier and client_identifier)` — the second disjunct also demands
a truthy (non-empty) identifier. -/
def clientMatches (client_identifier : String) (c : Client) : Bool :=
  (dictGet c "id" == some (Prim.str client_identifier)) ||
  ((dictGet c "email" == some (Prim.str client_identifier)) && !(client_identifier == ""))

/-- The in-place mutation of a matched client: with a truthy new password,
vless and trojan write it into `password`, vmess into `id`; with an empty
password nothing changes. -/
def mutateClient (protocol : String) (new_password : String) (c : Client) : Client :=
  if new_password = "" then c
  else if strLower protocol = "vless" || strLower protocol = "trojan" then
    dictSet c "password" (Prim.str new_password)
  else if strLower protocol = "vmess" then
    dictSet c "id" (Prim.str new_password)
  else c

/-- The scan-and-break loop of `handle_update_client`: mutate the first
matching client, leave the rest untouched. -/
def updateFirstMatch (client_identifier protocol new_password : String) :
    List Client → List Client
  | [] => []
  | c :: cs =>
    if clientMatches client_identifier c then
      mutateClient protocol new_password c :: cs
    else c :: updateFirstMatch client_identifier protocol new_password cs

/-- The distinct outcomes of `handle_update_client`'s per-inbound try block,
one per exit path of the source (only `updated` records status `Success`). -/
inductive UpdateResult where
  | fetchFailed
  | unsupportedProtocol
  | badSettings
  | notFound
  | updateFailed
  | updated
deriving DecidableEq, Repr

/-- The per-inbound body of `handle_update_client` (its try block): fetch
details, protocol guard, parse settings, scan for the first matching client,
mutate it, write the structured settings back and resubmit the whole inbound
through `update_inbound`.  With no match, report not-found without an update
call. -/
def update_client_inbound (api : Api) (inbound_id : Int)
    (client_identifier new_password : String)
    (listResp : Option (Option (List Inbound))) (updResp : Option Unit) :
    UpdateResult × List Request :=
  let r := get_inbound_details api listResp inbound_id
  match r.1 with
  | none => (UpdateResult.fetchFailed, r.2)
  | some inbound_details =>
    if supportedProtocol inbound_details.protocol = false then
      (UpdateResult.unsupportedProtocol, r.2)
    else
      match inbound_details.settings with
      | SettingsField.doc _ => (UpdateResult.badSettings, r.2)
      | SettingsField.ser settings =>
        if settings.clients.any (clientMatches client_identifier) then
          let clients :=
            updateFirstMatch client_identifier inbound_details.protocol new_password
              settings.clients
          let ib2 : Inbound :=
            { inbound_details with
              settings := SettingsField.doc { settings with clients := clients } }
          let r2 := update_inbound api ib2 updResp
          match r2.1 with
          | some _ => (UpdateResult.updated, r.2 ++ r2.2)
          | none => (UpdateResult.updateFailed, r.2 ++ r2.2)
        else (UpdateResult.notFound, r.2)

/-- `get_inbound_selection` with the default `all` choice: lists the
inbounds; a failed call, an absent `obj`, or an empty (falsy) `obj` abort
with no selection; otherwise every inbound id is selected.  (Index-based
selection is interactive input outside the API core.) -/
def get_inbound_selection (api : Api) (listResp : Option (Option (List Inbound))) :
    Option (List Int × List Inbound) × List Request :=
  let r := get_inbounds api listResp
  match r.1 with
  | some (some obj) =>
    if obj.isEmpty then (none, r.2)
    else (some (obj.map (fun ib => ib.id), obj), r.2)
  | _ => (none, r.2)

/-- `handle_update_client`: inbound selection (aborting when it yields
nothing, in particular when not logged in), the empty-identifier guard, then
the per-inbound loop accumulating one result and one request sub-trace per
selected inbound. -/
def handle_update_client (api : Api) (listResp : Option (Option (List Inbound)))
    (client_identifier new_password : String) (updResp : Option Unit) :
    Option (List UpdateResult) × List Request :=
  let s := get_inbound_selection api listResp
  match s.1 with
  | none => (none, s.2)
  | some (ids, _) =>
    if client_identifier = "" then (none, s.2)
    else
      let step := fun (acc : List UpdateResult × List Request) (i : Int) =>
        let r := update_client_inbound api i client_identifier new_password listResp updResp
        (acc.1 ++ [r.1], acc.2 ++ r.2)
      let folded := ids.foldl step ([], [])
      (some folded.1, s.2 ++ folded.2)

/-- The update payloads found in a request trace: the inbound dicts posted as
JSON bodies to the update endpoint. -/
def submittedUpdatePayloads (tr : List Request) : List Inbound :=
  tr.filterMap (fun r =>
    if r.endpoint = "panel/api/inbounds/update" then
      match r.payload with
      | ReqPayload.json ib => some ib
      | _ => none
    else none)

/-- The session header state `_request` manipulates: the current default
`Content-Type` header of the `requests.Session` (`none` = header absent). -/
structure Sess where
  contentType : Option String
deriving DecidableEq, Repr

/-- `self.session.headers.update({'Content-Type': v})`. -/
def setHeader (s : Sess) (v : Option String) : Sess :=
  { s with contentType := v }

/-- Which of `json_data` / `data` / neither was passed to `_request`. -/
inductive PayloadKind where
  | jsonData
  | formData
  | noData
deriving DecidableEq, Repr

/-- How one `_request` call ends, one constructor per control path of the
source: normal return, the five except clauses, in the order they appear
(`reqError` also covers the `success=false` body, which `_request` raises as
a `RequestException` after the line-95 restore). -/
inductive ReqOutcome where
  | ok
  | httpError
  | connError
  | timeout
  | reqError
  | jsonError
  | otherExn
deriving DecidableEq, Repr

/-- The header-threading skeleton of `XUIAPI._request`: save the current
`Content-Type` (line 72); for a POST overwrite it according to the payload
kind (lines 79/83/87); the HTTP call itself is made with that header;
`connError`/`timeout` are raised by the call itself, before the line-95
restore, and their handlers restore; on every path that gets a response the
line-95 restore runs first, and each later raise (`raise_for_status`, the
empty-body or JSON parse error, the `success=false` `RequestException`) is
caught by a handler that restores again; an unsupported method raises
`ValueError` before any header change and the generic handler restores.
Returns (`_request`'s result collapsed to success/`None`, final session). -/
def requestRun (s : Sess) (method : String) (pk : PayloadKind) (oc : ReqOutcome) :
    Option Unit × Sess :=
  let original_content_type := s.contentType
  if method = "POST" then
    let s1 : Sess :=
      match pk with
      | PayloadKind.jsonData => setHeader s (some "application/json")
      | PayloadKind.formData => setHeader s (some "application/x-www-form-urlencoded")
      | PayloadKind.noData => setHeader s (some "application/x-www-form-urlencoded")
    match oc with
    | ReqOutcome.connError => (none, setHeader s1 original_content_type)
    | ReqOutcome.timeout => (none, setHeader s1 original_content_type)
    | ReqOutcome.ok => (some (), setHeader s1 original_content_type)
    | ReqOutcome.httpError =>
      let s2 := setHeader s1 original_content_type
      (none, setHeader s2 original_content_type)
    | ReqOutcome.jsonError =>
      let s2 := setHeader s1 original_content_type
      (none, setHeader s2 original_content_type)
    | ReqOutcome.reqError =>
      let s2 := setHeader s1 original_content_type
      (none, setHeader s2 original_content_type)
    | ReqOutcome.otherExn => (none, setHeader s1 original_content_type)
  else if method = "GET" then
    match oc with
    | ReqOutcome.connError => (none, setHeader s original_content_type)
    | ReqOutcome.timeout => (none, setHeader s original_content_type)
    | ReqOutcome.ok => (some (), setHeader s original_content_type)
    | ReqOutcome.httpError =>
      let s2 := setHeader s original_content_type
      (none, setHeader s2 original_content_type)
    | ReqOutcome.jsonError =>
      let s2 := setHeader s original_content_type
      (none, setHeader s2 original_content_type)
    | ReqOutcome.reqError =>
      let s2 := setHeader s original_content_type
      (none, setHeader s2 original_content_type)
    | ReqOutcome.otherExn => (none, setHeader s original_content_type)
  else (none, setHeader s original_content_type)

/-- A hexadecimal digit, as allowed in the groups of a UUID string. -/
def isHexDig (c : Char) : Bool :=
  c.isDigit || (decide (97 ≤ c.toNat) && decide (c.toNat ≤ 102)) ||
    (decide (65 ≤ c.toNat) && decide (c.toNat ≤ 70))

/-- Syntactic UUID form, the shape `str(uuid.uuid4())` always has: 36
characters, hyphens at positions 8, 13, 18 and 23, hex digits elsewhere. -/
def IsUUIDForm (s : String) : Bool :=
  (s.data.length == 36) &&
  (List.range 36).all (fun i =>
    match s.data.get? i with
    | some c =>
      if i == 8 || i == 13 || i == 18 || i == 23 then c == '-' else isHexDig c
    | none => false)

/-- The primary secret field of a client record, per protocol (spec section
3): `password` for trojan, `id` for vless and vmess. -/
def primarySecretField (protocol : String) : String :=
  if strLower protocol = "trojan" then "password" else "id"

/-- A logged-in API object, for the concrete scenarios. -/
def exApi : Api := { username := "admin", password := "pw", login_status := true }

/-- A concrete UUID-shaped oracle value for `new_client_uuid`. -/
def exU : String := "123e4567-e89b-42d3-a456-426614174000"

/-- A concrete UUID-shaped oracle value for the generated secret. -/
def exG : String := "00112233-4455-4677-8899-aabbccddeeff"

/-- The settings document of the concrete trojan inbound: one existing
client labelled `b@x.com`. -/
def exTrojanDoc : SettingsDoc :=
  { clients := [[("password", Prim.str "p1"), ("email", Prim.str "b@x.com"),
                 ("level", Prim.int 0)]],
    rest := [] }

/-- A concrete trojan inbound as the list endpoint would return it. -/
def exTrojan : Inbound :=
  { id := 1, remark := "A", protocol := "trojan", port := 443,
    settings := SettingsField.ser exTrojanDoc, extra := [] }

/-- The trojan inbound of the spec's round-trip scenario: settings
`{"clients": [{"id":"u1","email":"a@x.com"}]}`. -/
def exRoundTrip : Inbound :=
  { id := 1, remark := "A", protocol := "trojan", port := 443,
    settings := SettingsField.ser
      { clients := [[("id", Prim.str "u1"), ("email", Prim.str "a@x.com")]], rest := [] },
    extra := [] }

/-- A fresh API object before any login (`login_status = False`). -/
def exApiOut : Api := { username := "admin", password := "pw", login_status := false }

/-- A concrete vless inbound with no clients yet. -/
def exVless : Inbound :=
  { id := 2, remark := "B", protocol := "vless", port := 8443,
    settings := SettingsField.ser { clients := [], rest := [] }, extra := [] }

/-- A concrete inbound whose `settings` field is an in-memory structured dict
(the shape `update_inbound` receives from the two client-mutation flows). -/
def exDocInbound : Inbound :=
  { id := 1, remark := "A", protocol := "trojan", port := 443,
    settings := SettingsField.doc exTrojanDoc, extra := [] }

/-! ## Helper lemmas -/

/-- A protocol accepted by the guard is, lowercased, one of the three
supported names. -/
theorem supportedProtocol_cases (p : String) (h : supportedProtocol p = true) :
    strLower p = "vless" ∨ strLower p = "vmess" ∨ strLower p = "trojan" := by
  simpa [supportedProtocol] using h

/-- Every synthesized client record carries the requested label in its
`email` field (for each supported protocol). -/
theorem build_new_client_email (p e u g : String) (h : supportedProtocol p = true) :
    dictGet (build_new_client p e u g) "email" = some (Prim.str e) := by
  rcases supportedProtocol_cases p h with h' | h' | h' <;>
    simp [build_new_client, h', dictGet, List.find?]

/-- Shape of the request trace of `add_client_to_inbound`: nothing, just the
list GET, or the list GET followed by one POST to the update endpoint. -/
theorem add_client_trace_shape
    (api : Api) (iid : Int) (e : String) (pw : Option String) (u g : String)
    (lr : Option (Option (List Inbound))) (ur : Option Unit) :
    (add_client_to_inbound api iid e pw u g lr ur).2 = [] ∨
    (add_client_to_inbound api iid e pw u g lr ur).2 = [listRequest] ∨
    ∃ ib2, (add_client_to_inbound api iid e pw u g lr ur).2
      = [listRequest, updateRequest ib2] := by
  unfold add_client_to_inbound get_inbound_details get_inbounds update_inbound
  cases hl : api.login_status
  · simp
  · simp
    rcases lr with _ | (_ | l)
    · simp
    · simp
    · simp
      rcases h2 : findInbound l iid with _ | ib
      · simp
      · simp
        by_cases hs : supportedProtocol ib.protocol = false
        · simp [hs]
        · simp [hs]
          rcases hset : ib.settings with d | d
          · by_cases hd : hasEmailClient d.clients e
            · simp [hd]
            · simp [hd]
              cases ur <;> simp
          · simp

/-! ## Claim theorems -/

/-- C1, counterexample: in a concrete logged-in run adding `a@x.com` to a
trojan inbound that already holds one other client, `add_client_to_inbound`
issues no request to a dedicated `panel/api/inbounds/addClient` endpoint at
all; it POSTs to `panel/api/inbounds/update`, and the payload it submits
carries the inbound's full settings document with both clients — not a
minimal one-client settings object. -/
theorem c1_counterexample :
    ((add_client_to_inbound exApi 1 "a@x.com" none exU exG (some (some [exTrojan]))
        (some ())).2.map (fun r => r.endpoint)
      = ["panel/api/inbounds/list", "panel/api/inbounds/update"]) ∧
    (submittedUpdatePayloads
        (add_client_to_inbound exApi 1 "a@x.com" none exU exG (some (some [exTrojan]))
          (some ())).2
      = [{ exTrojan with
           settings := SettingsField.ser
             { clients := [[("password", Prim.str "p1"), ("email", Prim.str "b@x.com"),
                            ("level", Prim.int 0)],
                           [("password", Prim.str exG), ("email", Prim.str "a@x.com"),
                            ("level", Prim.int 0)]],
               rest := [] } }]) := ⟨rfl, rfl⟩

/-- C1 (amended): for every inbound with a supported protocol and a
non-colliding label, `add_client_to_inbound` appends the newly created
client to the inbound's existing client list and resubmits the inbound's
full settings document through the update operation (`POST
panel/api/inbounds/update`); no dedicated add-client endpoint is used. -/
theorem c1_add_client_appends_and_updates
    (api : Api) (l : List Inbound) (iid : Int) (ib : Inbound) (d : SettingsDoc)
    (email : String) (pw : Option String) (u g : String) (ur : Option Unit)
    (hl : api.login_status = true)
    (hfind : findInbound l iid = some ib)
    (hsup : supportedProtocol ib.protocol = true)
    (hser : ib.settings = SettingsField.ser d)
    (hnodup : hasEmailClient d.clients email = false) :
    (add_client_to_inbound api iid email pw u g (some (some l)) ur).2
      = [listRequest,
         updateRequest
           { ib with
             settings := SettingsField.ser
               { d with
                 clients :=
                   d.clients ++
                     [build_new_client ib.protocol email u (generatedSecret pw g)] } }] := by
  unfold add_client_to_inbound get_inbound_details get_inbounds update_inbound
  simp [hl, hfind, hser, hsup, hnodup, stringifySettings]
  cases ur <;> simp

/-- C1, witness: the amended theorem applied to the concrete scenario of the
counterexample. -/
theorem c1_witness :
    supportedProtocol exTrojan.protocol = true ∧
    (add_client_to_inbound exApi 1 "a@x.com" none exU exG (some (some [exTrojan]))
        (some ())).2
      = [listRequest,
         updateRequest
           { exTrojan with
             settings := SettingsField.ser
               { exTrojanDoc with
                 clients :=
                   exTrojanDoc.clients ++
                     [build_new_client exTrojan.protocol "a@x.com" exU
                        (generatedSecret none exG)] } }] :=
  ⟨by decide,
   c1_add_client_appends_and_updates exApi [exTrojan] 1 exTrojan exTrojanDoc "a@x.com" none
     exU exG (some ()) rfl (by decide) (by decide) rfl (by decide)⟩

/-- C2: a session whose `login_status` flag is false rejects every operation
— `get_inbounds` (listInbounds), `get_inbound_details` (getInbound),
`update_inbound`, `add_client_to_inbound` and `handle_update_client`
(updateClient) — immediately with the unauthenticated outcome (`None` /
`notLoggedIn`), and its request trace is empty: no network request is
performed. -/
theorem c2_unauthenticated_no_network (api : Api) (h : api.login_status = false) :
    (∀ r, get_inbounds api r = (none, [])) ∧
    (∀ r i, get_inbound_details api r i = (none, [])) ∧
    (∀ cfg u, update_inbound api cfg u = (none, [])) ∧
    (∀ i e pw u g r ur,
      add_client_to_inbound api i e pw u g r ur = (AddResult.notLoggedIn, [])) ∧
    (∀ r i npw ur, handle_update_client api r i npw ur = (none, [])) := by
  refine ⟨?_, ?_, ?_, ?_, ?_⟩ <;> intros <;>
    simp [get_inbounds, get_inbound_details, update_inbound, add_client_to_inbound,
      handle_update_client, get_inbound_selection, h]

/-- C2, witness: the theorem applied to a fresh (never logged in) session. -/
theorem c2_witness :
    exApiOut.login_status = false ∧
    get_inbounds exApiOut none = (none, []) ∧
    add_client_to_inbound exApiOut 1 "a@x.com" none exU exG none none
      = (AddResult.notLoggedIn, []) ∧
    handle_update_client exApiOut none "a@x.com" "s2" none = (none, []) :=
  ⟨rfl, (c2_unauthenticated_no_network exApiOut rfl).1 none,
   (c2_unauthenticated_no_network exApiOut rfl).2.2.2.1 1 "a@x.com" none exU exG none none,
   (c2_unauthenticated_no_network exApiOut rfl).2.2.2.2 none "a@x.com" "s2" none⟩

/-- C3: for a trojan inbound whose settings document is
`{"clients": [{"id":"u1","email":"a@x.com"}]}`, updating the client
identified by `a@x.com` with the new secret `s2` submits to the update
operation a settings document equal to
`{"clients": [{"id":"u1","email":"a@x.com","password":"s2"}]}`. -/
theorem c3_trojan_round_trip :
    (submittedUpdatePayloads
        (handle_update_client exApi (some (some [exRoundTrip])) "a@x.com" "s2" (some ())).2).map
      (fun p => p.settings)
      = [SettingsField.ser
          { clients := [[("id", Prim.str "u1"), ("email", Prim.str "a@x.com"),
                         ("password", Prim.str "s2")]],
            rest := [] }] := by
  rfl

/-- C4, counterexample: for a concrete inbound the payload that
`update_inbound` submits to the update endpoint has the keys `id`, `remark`,
`protocol`, `port` and `settings` — it does not consist of exactly the pair
`{id, settings}`. -/
theorem c4_counterexample :
    ((submittedUpdatePayloads (update_inbound exApi exDocInbound (some ())).2).map inboundKeys
      = [["id", "remark", "protocol", "port", "settings"]]) ∧
    (["id", "remark", "protocol", "port", "settings"] ≠ (["id", "settings"] : List String)) :=
  ⟨rfl, by decide⟩

/-- C4 (amended): `update_inbound` serializes a structured `settings` field
to its JSON-string form before submission, and the payload submitted to the
update endpoint is the entire inbound configuration — every key of the
inbound dict, with `settings` stringified — not just the pair
`{id, settings}`. -/
theorem c4_update_submits_full_inbound
    (api : Api) (cfg : Inbound) (u : Option Unit) (hl : api.login_status = true) :
    ((update_inbound api cfg u).2
        = [updateRequest { cfg with settings := stringifySettings cfg.settings }]) ∧
    (∀ d, cfg.settings = SettingsField.doc d →
        stringifySettings cfg.settings = SettingsField.ser d) ∧
    ((submittedUpdatePayloads (update_inbound api cfg u).2).map inboundKeys
        = [inboundKeys cfg]) := by
  refine ⟨?_, ?_, ?_⟩
  · simp [update_inbound, hl]
  · intro d hd; simp [hd, stringifySettings]
  · simp [update_inbound, hl, submittedUpdatePayloads, updateRequest, inboundKeys]

/-- C4, witness: the amended theorem applied to a logged-in session and an
inbound whose settings is a structured document. -/
theorem c4_witness :
    exApi.login_status = true ∧
    ((update_inbound exApi exDocInbound (some ())).2
        = [updateRequest
            { exDocInbound with settings := stringifySettings exDocInbound.settings }]) ∧
    ((submittedUpdatePayloads (update_inbound exApi exDocInbound (some ())).2).map inboundKeys
        = [inboundKeys exDocInbound]) :=
  ⟨rfl, (c4_update_submits_full_inbound exApi exDocInbound (some ()) rfl).1,
   (c4_update_submits_full_inbound exApi exDocInbound (some ()) rfl).2.2⟩

/-- C5, counterexample: a concrete `update_inbound` request is sent as a JSON
body (carrying the whole inbound dict, its settings pre-serialized inside),
not as a form-encoded body. -/
theorem c5_counterexample :
    ((update_inbound exApi exDocInbound (some ())).2.map (fun r => isFormBody r.payload)
       = [false]) ∧
    ((update_inbound exApi exDocInbound (some ())).2.map (fun r => r.payload)
       = [ReqPayload.json { exDocInbound with settings := SettingsField.ser exTrojanDoc }]) :=
  ⟨rfl, rfl⟩

/-- C5 (amended): login requests are form-encoded (`username`, `password`);
update-inbound submissions — and therefore the add-client flow, which goes
through `update_inbound` — are sent as a JSON request body in which the
settings document appears as a pre-serialized JSON string inside one field;
no request issued by `add_client_to_inbound` has a form-encoded body. -/
theorem c5_payload_encoding
    (api : Api) (resp : Option Unit) (cfg : Inbound) (u2 : Option Unit)
    (hl : api.login_status = true) :
    ((login api resp).2
       = [{ method := "POST", endpoint := "login",
            payload := ReqPayload.form
              [("username", api.username), ("password", api.password)] }]) ∧
    ((update_inbound api cfg u2).2
       = [updateRequest { cfg with settings := stringifySettings cfg.settings }]) ∧
    (∃ d, stringifySettings cfg.settings = SettingsField.ser d) ∧
    (∀ iid e pw u g lr ur req,
       req ∈ (add_client_to_inbound api iid e pw u g lr ur).2 →
       isFormBody req.payload = false) := by
  refine ⟨?_, ?_, ?_, ?_⟩
  · cases resp <;> simp [login]
  · simp [update_inbound, hl]
  · rcases hs : cfg.settings with d | d
    · exact ⟨d, by simp [stringifySettings]⟩
    · exact ⟨d, by simp [stringifySettings]⟩
  · intro iid e pw u g lr ur req hreq
    rcases add_client_trace_shape api iid e pw u g lr ur with h | h | ⟨ib2, h⟩ <;>
      rw [h] at hreq
    · simp at hreq
    · simp at hreq
      subst hreq
      rfl
    · simp at hreq
      rcases hreq with hreq | hreq <;> subst hreq <;> rfl

/-- C5, witness: the amended theorem applied to a logged-in session and a
structured-settings inbound. -/
theorem c5_witness :
    exApi.login_status = true ∧
    ((update_inbound exApi exDocInbound (some ())).2
       = [updateRequest
           { exDocInbound with settings := stringifySettings exDocInbound.settings }]) ∧
    (∃ d, stringifySettings exDocInbound.settings = SettingsField.ser d) :=
  ⟨rfl, (c5_payload_encoding exApi (some ()) exDocInbound (some ()) rfl).2.1,
   (c5_payload_encoding exApi (some ()) exDocInbound (some ()) rfl).2.2.1⟩

/-- C6, counterexample: the client record a concrete secretless vless add
submits is exactly `{id, email, flow, level, password}` — it carries no
`enable` flag and no `subId` (nor any traffic/IP-limit field), contrary to
the claimed common bookkeeping fields. -/
theorem c6_counterexample :
    (submittedUpdatePayloads
        (add_client_to_inbound exApi 2 "a@x.com" none exU exG (some (some [exVless]))
          (some ())).2
      = [{ exVless with
           settings := SettingsField.ser
             { clients := [[("id", Prim.str exU), ("email", Prim.str "a@x.com"),
                            ("flow", Prim.str ""), ("level", Prim.int 0),
                            ("password", Prim.str exG)]],
               rest := [] } }]) ∧
    (dictGet [("id", Prim.str exU), ("email", Prim.str "a@x.com"), ("flow", Prim.str ""),
              ("level", Prim.int 0), ("password", Prim.str exG)] "enable" = none) ∧
    (dictGet [("id", Prim.str exU), ("email", Prim.str "a@x.com"), ("flow", Prim.str ""),
              ("level", Prim.int 0), ("password", Prim.str exG)] "subId" = none) :=
  ⟨rfl, rfl, rfl⟩

/-- C6 (amended): for every supported protocol, the client record synthesized
by a secretless add (both uuid4 oracles being UUID-form strings) has a
UUID-form token in its primary secret field (`id` for vless/vmess,
`password` for trojan) and carries the requested label in `email`; but it
carries none of the claimed common bookkeeping fields: no `enable` flag, no
`subId`, no `totalGB`, no `limitIp`. -/
theorem c6_new_client_record_shape
    (protocol email u g : String) (hsup : supportedProtocol protocol = true)
    (hu : IsUUIDForm u = true) (hg : IsUUIDForm g = true) :
    (∃ v, dictGet (build_new_client protocol email u g) (primarySecretField protocol)
            = some (Prim.str v) ∧ IsUUIDForm v = true) ∧
    dictGet (build_new_client protocol email u g) "enable" = none ∧
    dictGet (build_new_client protocol email u g) "subId" = none ∧
    dictGet (build_new_client protocol email u g) "totalGB" = none ∧
    dictGet (build_new_client protocol email u g) "limitIp" = none ∧
    dictGet (build_new_client protocol email u g) "email" = some (Prim.str email) := by
  rcases supportedProtocol_cases protocol hsup with h | h | h
  · exact ⟨⟨u, by simp [build_new_client, primarySecretField, h, dictGet, List.find?], hu⟩,
      by simp [build_new_client, h, dictGet, List.find?],
      by simp [build_new_client, h, dictGet, List.find?],
      by simp [build_new_client, h, dictGet, List.find?],
      by simp [build_new_client, h, dictGet, List.find?],
      by simp [build_new_client, h, dictGet, List.find?]⟩
  · exact ⟨⟨g, by simp [build_new_client, primarySecretField, h, dictGet, List.find?], hg⟩,
      by simp [build_new_client, h, dictGet, List.find?],
      by simp [build_new_client, h, dictGet, List.find?],
      by simp [build_new_client, h, dictGet, List.find?],
      by simp [build_new_client, h, dictGet, List.find?],
      by simp [build_new_client, h, dictGet, List.find?]⟩
  · exact ⟨⟨g, by simp [build_new_client, primarySecretField, h, dictGet, List.find?], hg⟩,
      by simp [build_new_client, h, dictGet, List.find?],
      by simp [build_new_client, h, dictGet, List.find?],
      by simp [build_new_client, h, dictGet, List.find?],
      by simp [build_new_client, h, dictGet, List.find?],
      by simp [build_new_client, h, dictGet, List.find?]⟩

/-- C6, witness: the amended theorem applied to the vless protocol with
concrete UUID-form oracle values. -/
theorem c6_witness :
    supportedProtocol "vless" = true ∧ IsUUIDForm exU = true ∧ IsUUIDForm exG = true ∧
    (∃ v, dictGet (build_new_client "vless" "a@x.com" exU exG) (primarySecretField "vless")
            = some (Prim.str v) ∧ IsUUIDForm v = true) ∧
    dictGet (build_new_client "vless" "a@x.com" exU exG) "enable" = none :=
  ⟨by decide, by decide, by decide,
   (c6_new_client_record_shape "vless" "a@x.com" exU exG (by decide) (by decide) (by decide)).1,
   (c6_new_client_record_shape "vless" "a@x.com" exU exG (by decide) (by decide)
     (by decide)).2.1⟩

/-- C7: when the target inbound's existing client list already contains a
client labelled with the requested email, `add_client_to_inbound` fails with
the duplicate outcome and its whole trace is the single list GET of the
detail fetch — no further server request after the pre-check.  Moreover (for
the second-call idempotence) the client list a successful add submits always
contains the added label, so a second add against the updated inbound
satisfies the first part's hypothesis and yields the duplicate outcome. -/
theorem c7_duplicate_label_precheck
    (api : Api) (l : List Inbound) (iid : Int) (ib : Inbound) (d : SettingsDoc) (email : String)
    (hl : api.login_status = true)
    (hfind : findInbound l iid = some ib)
    (hsup : supportedProtocol ib.protocol = true)
    (hser : ib.settings = SettingsField.ser d) :
    (hasEmailClient d.clients email = true →
      ∀ pw u g ur, add_client_to_inbound api iid email pw u g (some (some l)) ur
        = (AddResult.duplicateEmail, [listRequest])) ∧
    (∀ pw u g,
      hasEmailClient
        (d.clients ++ [build_new_client ib.protocol email u (generatedSecret pw g)])
        email = true) := by
  constructor
  · intro hdup pw u g ur
    unfold add_client_to_inbound get_inbound_details get_inbounds
    simp [hl, hfind, hser, hsup, hdup]
  · intro pw u g
    simp [hasEmailClient, List.any_append, List.any,
      build_new_client_email ib.protocol email u (generatedSecret pw g) hsup]

/-- C7, witness: adding `b@x.com` a second time — the concrete trojan inbound
already holds that label — yields the duplicate outcome with only the list
GET in the trace. -/
theorem c7_witness :
    hasEmailClient exTrojanDoc.clients "b@x.com" = true ∧
    add_client_to_inbound exApi 1 "b@x.com" none exU exG (some (some [exTrojan])) (some ())
      = (AddResult.duplicateEmail, [listRequest]) :=
  ⟨by decide,
   (c7_duplicate_label_precheck exApi [exTrojan] 1 exTrojan exTrojanDoc "b@x.com" rfl
      (by decide) (by decide) rfl).1 (by decide) none exU exG (some ())⟩

/-- C8: when no client of the inbound has its `id` or `email` exactly equal
to the identifier, the per-inbound update-client operation reports the
not-found outcome and its trace is the single list GET — no call to the
update endpoint is issued. -/
theorem c8_update_client_not_found
    (api : Api) (l : List Inbound) (iid : Int) (ib : Inbound) (d : SettingsDoc)
    (ident npw : String) (ur : Option Unit)
    (hl : api.login_status = true)
    (hfind : findInbound l iid = some ib)
    (hsup : supportedProtocol ib.protocol = true)
    (hser : ib.settings = SettingsField.ser d)
    (hnomatch : ∀ c ∈ d.clients,
      dictGet c "id" ≠ some (Prim.str ident) ∧ dictGet c "email" ≠ some (Prim.str ident)) :
    update_client_inbound api iid ident npw (some (some l)) ur
      = (UpdateResult.notFound, [listRequest]) := by
  have hany : d.clients.any (clientMatches ident) = false := by
    rw [List.any_eq_false]
    intro c hc
    rcases hnomatch c hc with ⟨h1, h2⟩
    simp [clientMatches, h1, h2]
  unfold update_client_inbound get_inbound_details get_inbounds
  simp [hl, hfind, hser, hsup, hany]

/-- C8, witness: the theorem applied to the concrete trojan inbound and an
identifier matching no client. -/
theorem c8_witness :
    update_client_inbound exApi 1 "nobody@x.com" "s2" (some (some [exTrojan])) (some ())
      = (UpdateResult.notFound, [listRequest]) :=
  c8_update_client_not_found exApi [exTrojan] 1 exTrojan exTrojanDoc "nobody@x.com" "s2"
    (some ()) rfl (by decide) (by decide) rfl (by decide)

/-- C9, counterexample: starting from a fresh session, a successful login
sets the authenticated flag to true, and a subsequent failed login attempt
sets it back to false — the flag does transition true→false within one
process. -/
theorem c9_counterexample :
    ((login exApiOut (some ())).1.2).login_status = true ∧
    ((login ((login exApiOut (some ())).1.2) none).1.2).login_status = false := ⟨rfl, rfl⟩

/-- C9 (amended): the authenticated flag transitions false→true on a
successful login, but every login attempt overwrites it with the attempt's
outcome, so a failed re-login resets it to false; the return value of
`login` equals the new flag.  (No other operation writes the flag.) -/
theorem c9_login_flag_dynamics (api : Api) (resp : Option Unit) :
    ((login api resp).1.2).login_status = resp.isSome ∧
    (login api resp).1.1 = resp.isSome := by
  cases resp <;> simp [login]

/-- C10: whatever the method, payload encoding and outcome — success, HTTP
error, connection error, timeout, malformed JSON body, API `success=false`,
or any other exception — `_request` restores the session's default
`Content-Type` header to the value it held before the call. -/
theorem c10_content_type_restored (s : Sess) (method : String) (pk : PayloadKind)
    (oc : ReqOutcome) :
    (requestRun s method pk oc).2.contentType = s.contentType := by
  unfold requestRun
  by_cases h : method = "POST" <;> by_cases h2 : method = "GET" <;>
    cases pk <;> cases oc <;> simp [h, h2, setHeader]
